import Mathlib

/-!
Verification development for the idaes-ui presentation-layer slice:
shared panel-visibility state, the view-toggle menu, the two panel-layout
wrapper components, and the demo-data loader.

The definitions below are shallow embeddings of the TypeScript/JSX source:
* `PanelEntry`, `initialPanelState`, `loadDemoFlowsheet`
  — `src/IDAES-UI/src/context/appMainContext.tsx`
* `panelShowHandler`, `viewList` — the view-menu component (HeaderFNBtnView)
* `flowsheetWrapperA` — the vertical-primary FlowsheetWrapper variant
* `flowsheetWrapperB`, `runEffects`, `serverPortConfig`
  — `src/IDAES-UI/src/components/flowsheet_main_component/flowsheet_wrapper.tsx`
-/

/-- One entry of the shared panel-visibility collection, from the provider's
`useState` initial value: `{ panelName : "...", show : ... }`.  The source
field `show` is a Lean keyword, so it is named `shown` here. -/
structure PanelEntry where
  panelName : String
  shown : Bool
deriving DecidableEq, Repr

/-- The initial panel collection created by `AppContextProvider`
(appMainContext.tsx lines 8-29). -/
def initialPanelState : List PanelEntry :=
  [ { panelName := "Flowsheet", shown := true }
  , { panelName := "Variables", shown := true }
  , { panelName := "Stream Table", shown := true }
  , { panelName := "Report", shown := false }
  , { panelName := "Diagnostics", shown := true }
  ]

/-- The functional updater passed to `setPanelState` by `panelShowHandler`
in the view-menu component: map over the previous collection, returning
`{...el, show: !el.show}` for the entry whose `panelName` equals the
clicked name and `el` itself otherwise. -/
def panelShowHandler (selectedPanelName : String) (prev : List PanelEntry) :
    List PanelEntry :=
  prev.map (fun el =>
    if el.panelName = selectedPanelName then
      { el with shown := !el.shown }
    else
      el)

/-- One rendered entry of the view menu's list: the JSX
`<li key={el.panelName + index} onClick=...><span>{el.panelName}</span>
{el.show ? <FontAwesomeIcon icon={faCheck}/> : ""}</li>`. -/
structure MenuItem where
  key : String
  label : String
  clickTarget : String
  hasCheckIcon : Bool
deriving DecidableEq, Repr

/-- The body of `context.panelState.map((el, index) => <li .../>)`: a JS
`map` with the running index, rendered starting from index `i`. -/
def viewListFrom (i : Nat) : List PanelEntry → List MenuItem
  | [] => []
  | el :: rest =>
      { key := el.panelName ++ toString i
      , label := el.panelName
      , clickTarget := el.panelName
      , hasCheckIcon := el.shown } :: viewListFrom (i + 1) rest

/-- The `viewList` value of the view-menu component (indices start at 0). -/
def viewList (ps : List PanelEntry) : List MenuItem :=
  viewListFrom 0 ps

/-- A small model of JavaScript runtime values, enough to express property
access on the context's `panelState` value. -/
inductive JSValue where
  | undefined
  | bool (b : Bool)
  | num (n : Int)
  | str (s : String)
  | arr (elems : List JSValue)
  | obj (fields : List (String × JSValue))
deriving Repr

/-- JavaScript property access `v.f` for a non-numeric property name.
Reading a property of `undefined` throws a TypeError (`none`); an object
yields the field's value or `undefined` when absent; an array has a
`length` property and otherwise yields `undefined` for named properties;
other primitives yield `undefined` for the names used here. -/
def getProp : JSValue → String → Option JSValue
  | JSValue.undefined, _ => none
  | JSValue.obj fields, f => some ((fields.lookup f).getD JSValue.undefined)
  | JSValue.arr elems, f =>
      if f = "length" then some (JSValue.num elems.length) else some JSValue.undefined
  | _, _ => some JSValue.undefined

/-- One panel entry as the JS object the provider stores:
`{ panelName: ..., show: ... }`. -/
def panelEntryJS (e : PanelEntry) : JSValue :=
  JSValue.obj [("panelName", JSValue.str e.panelName), ("show", JSValue.bool e.shown)]

/-- The `panelState` value the provider actually supplies: a JS array of
panel-entry objects. -/
def panelStateJS (ps : List PanelEntry) : JSValue :=
  JSValue.arr (ps.map panelEntryJS)

/-- The visibility-flag reads performed by the horizontal-primary
`FlowsheetWrapper` (flowsheet_wrapper.tsx lines 18-20):
`panelState.fv.show`, `panelState.diagnostics.show`,
`panelState.streamTable.show`.  `none` models a thrown TypeError. -/
def wrapperFlagReads (panelState : JSValue) :
    Option (JSValue × JSValue × JSValue) := do
  let fv ← getProp panelState "fv"
  let isFvShow ← getProp fv "show"
  let diagnostics ← getProp panelState "diagnostics"
  let isDiagnosticsShow ← getProp diagnostics "show"
  let streamTable ← getProp panelState "streamTable"
  let isStreamTableShow ← getProp streamTable "show"
  pure (isFvShow, isDiagnosticsShow, isStreamTableShow)

/-- The outcome of `axios.get('/data/demo_flowsheet.json')`: axios resolves
with the parsed body on a 2xx response and rejects (throws into the `catch`)
on a network error, a non-2xx status, or an unparsable body. -/
inductive FetchResult where
  | success (doc : JSValue)
  | failure (err : String)
deriving Repr

/-- The loader-visible state: the `flowsheetState` React state (initially
`null`, modelled as `none`) and the sequence of `console.error` calls. -/
structure LoaderState where
  flowsheetState : Option JSValue
  errorLog : List String
deriving Repr

/-- State at provider mount: `useState(null)` and nothing logged. -/
def initialLoaderState : LoaderState :=
  { flowsheetState := none, errorLog := [] }

/-- The `loadDemoFlowsheet` function (appMainContext.tsx lines 35-43): on success store
`res.data` via `setFlowsheetState`; on failure `console.error(err)` and
nothing else — the error is swallowed, not rethrown. -/
def loadDemoFlowsheet (r : FetchResult) (s : LoaderState) : LoaderState :=
  match r with
  | FetchResult.success doc => { s with flowsheetState := some doc }
  | FetchResult.failure err => { s with errorLog := s.errorLog ++ [err] }

/-- Props carried by a `<Panel>` element in the wrappers. -/
structure PanelProps where
  defaultSize : Option Nat
  minSize : Option Nat
  maxSize : Option Nat
  styleDisplay : Option String
deriving DecidableEq, Repr

/-- A rendered JSX tree.  `empty` is what JSX renders for the value `false`
produced by a `{cond && <X/>}` guard; `seq` is adjacency of two siblings. -/
inductive RNode where
  | empty
  | component (name : String)
  | panel (props : PanelProps) (child : RNode)
  | panelGroup (direction : String) (child : RNode)
  | resizeHandle (className : String)
  | div (idAttr : String) (className : String) (child : RNode)
  | seq (a b : RNode)
deriving DecidableEq, Repr

/-- A JSX guard `{cond && element}`: the element when `cond`, else nothing. -/
def jsxWhen (cond : Bool) (node : RNode) : RNode :=
  if cond then node else RNode.empty

/-- Whether a component with the given name is mounted somewhere in the
tree. -/
def mounts (name : String) : RNode → Bool
  | RNode.empty => false
  | RNode.component n => n == name
  | RNode.panel _ c => mounts name c
  | RNode.panelGroup _ c => mounts name c
  | RNode.resizeHandle _ => false
  | RNode.div _ _ c => mounts name c
  | RNode.seq a b => mounts name a || mounts name b

/-- Whether some mounted `<Panel>` in the tree is merely styled invisible
(`display: "none"`). -/
def hasHiddenPanel : RNode → Bool
  | RNode.empty => false
  | RNode.component _ => false
  | RNode.panel p c => p.styleDisplay == some "none" || hasHiddenPanel c
  | RNode.panelGroup _ c => hasHiddenPanel c
  | RNode.resizeHandle _ => false
  | RNode.div _ _ c => hasHiddenPanel c
  | RNode.seq a b => hasHiddenPanel a || hasHiddenPanel b

/-- The vertical-primary `FlowsheetWrapper` variant (the unnamed source
file): a vertical `PanelGroup` whose top panel splits horizontally into the
Flowsheet and Variables regions, with the Stream Table region below; each
region is mounted behind a `{flag && ...}` guard. -/
def flowsheetWrapperA (isFvShow isVariablesShow isStreamTableShow : Bool) : RNode :=
  RNode.panelGroup "vertical" (RNode.seq
    (RNode.panel
      { defaultSize := some 70, minSize := none, maxSize := some 100, styleDisplay := none }
      (RNode.panelGroup "horizontal" (RNode.seq
        (jsxWhen isFvShow
          (RNode.panel
            { defaultSize := some 70, minSize := some 0, maxSize := none, styleDisplay := none }
            (RNode.seq (RNode.component "FlowsheetHeader") (RNode.component "Flowsheet"))))
        (RNode.seq
          (RNode.resizeHandle "panelResizeHandle panelResizeHandle_vertical")
          (jsxWhen isVariablesShow
            (RNode.panel
              { defaultSize := some 30, minSize := some 0, maxSize := none, styleDisplay := none }
              (RNode.seq (RNode.component "FlowsheetVariablesHeader")
                (RNode.component "Flowsheet_variable"))))))))
    (RNode.seq
      (RNode.resizeHandle "panelResizeHandle panelResizeHandle_horizontal")
      (jsxWhen isStreamTableShow
        (RNode.panel
          { defaultSize := some 30, minSize := none, maxSize := some 100, styleDisplay := none }
          (RNode.component "StreamTable")))))

/-- The horizontal-primary `FlowsheetWrapper` (flowsheet_wrapper.tsx lines
36-67): an unconditional minimized bar, then a horizontal `PanelGroup`
whose left panel splits vertically into Flowsheet and Stream Table and
whose right panel is Diagnostics.  The Stream Table panel additionally
carries the `style={isStreamTableShow ? panelShow : panelHide}` display
style from the source. -/
def flowsheetWrapperB (isFvShow isDiagnosticsShow isStreamTableShow : Bool) : RNode :=
  RNode.div "flowsheet-wrapper" "flowsheetWrapper" (RNode.seq
    (RNode.component "MinimizedBar")
    (RNode.panelGroup "horizontal" (RNode.seq
      (RNode.panel
        { defaultSize := some 65, minSize := none, maxSize := none, styleDisplay := none }
        (RNode.panelGroup "vertical" (RNode.seq
          (jsxWhen isFvShow
            (RNode.panel
              { defaultSize := some (if isFvShow then 65 else 0), minSize := none
              , maxSize := some 100, styleDisplay := none }
              (RNode.seq (RNode.component "FlowsheetHeader") (RNode.component "Flowsheet"))))
          (RNode.seq
            (RNode.resizeHandle "panelResizeHandle panelResizeHandle_horizontal")
            (jsxWhen isStreamTableShow
              (RNode.panel
                { defaultSize := some 35, minSize := none, maxSize := some 100
                , styleDisplay := some (if isStreamTableShow then "block" else "none") }
                (RNode.component "StreamTable")))))))
      (RNode.seq
        (RNode.resizeHandle "panelResizeHandle panelResizeHandle_vertical")
        (jsxWhen isDiagnosticsShow
          (RNode.panel
            { defaultSize := some (if isFvShow then 35 else 100), minSize := some 0
            , maxSize := none, styleDisplay := none }
            (RNode.component "FlowsheetDiagnostics")))))))

/-- The server-port adjustment in the mount effect (flowsheet_wrapper.tsx
line 27): `server_port == "5173" ? server_port = 8000 : server_port =
server_port`.  The detected UI-serving port is a string; the fallback is
the number `8000`, so the configured value is a string-or-number sum. -/
def serverPortConfig (detected : String) : String ⊕ Nat :=
  if detected = "5173" then Sum.inr 8000 else Sum.inl detected

/-- The per-render configuration the mount effect closes over. -/
structure WrapperConfig where
  fv_id : String
  server_port : String
  isFvShow : Bool
  isStreamTableShow : Bool
deriving DecidableEq, Repr

/-- The arguments of `new MainFV(fv_id, server_port, isFvShow, false,
isStreamTableShow)` — the `false` is the source's hardcoded placeholder for
`isVariableShow`. -/
structure MainFVArgs where
  fv_id : String
  port : String ⊕ Nat
  isFvShow : Bool
  isVariableShow : Bool
  isStreamTableShow : Bool
deriving DecidableEq, Repr

/-- The driver instance the effect body builds from a render's
configuration. -/
def effectInstance (c : WrapperConfig) : MainFVArgs :=
  { fv_id := c.fv_id
  , port := serverPortConfig c.server_port
  , isFvShow := c.isFvShow
  , isVariableShow := false
  , isStreamTableShow := c.isStreamTableShow }

/-- The effect's dependency array, `[isFvShow, isStreamTableShow]`
(flowsheet_wrapper.tsx line 34). -/
def effectDeps (c : WrapperConfig) : Bool × Bool :=
  (c.isFvShow, c.isStreamTableShow)

/-- Observable driver-lifecycle events: constructing a `MainFV` instance
and running its cleanup `fv.cleanToolBarEvent()`. -/
inductive DriverEvent where
  | create (args : MainFVArgs)
  | cleanup (args : MainFVArgs)
deriving DecidableEq, Repr

/-- React effect semantics after the first render, with `active` the render
whose effect last ran: on each subsequent render the effect re-runs exactly
when the dependency array changed, running the previous cleanup before the
new effect body; on unmount the last cleanup runs. -/
def runFrom (active : WrapperConfig) : List WrapperConfig → List DriverEvent
  | [] => [DriverEvent.cleanup (effectInstance active)]
  | c :: cs =>
      if effectDeps c = effectDeps active then
        runFrom active cs
      else
        DriverEvent.cleanup (effectInstance active) ::
          DriverEvent.create (effectInstance c) :: runFrom c cs

/-- The driver-lifecycle trace of a whole run of the component: the renders
in order, from mount through unmount. -/
def runEffects : List WrapperConfig → List DriverEvent
  | [] => []
  | c :: cs => DriverEvent.create (effectInstance c) :: runFrom c cs

/-- Number of driver instances created along a trace. -/
def countCreates : List DriverEvent → Nat
  | [] => 0
  | DriverEvent.create _ :: rest => countCreates rest + 1
  | DriverEvent.cleanup _ :: rest => countCreates rest

/-- Number of changes of the effect's dependency pair along the renders
after the first. -/
def depChanges (active : WrapperConfig) : List WrapperConfig → Nat
  | [] => 0
  | c :: cs =>
      if effectDeps c = effectDeps active then depChanges active cs
      else depChanges c cs + 1

/-- A trace is well bracketed when it is a sequence of create/cleanup pairs
in which each cleanup releases exactly the instance created right before
it. -/
def wellBracketed : List DriverEvent → Bool
  | [] => true
  | DriverEvent.create a :: DriverEvent.cleanup b :: rest =>
      if a = b then wellBracketed rest else false
  | _ => false

/-- A concrete pair of renders that differ only in `fv_id`, used to examine
the effect's dependency array. -/
def c4Config1 : WrapperConfig :=
  { fv_id := "fs0", server_port := "3000", isFvShow := true, isStreamTableShow := true }

/-- Same as `c4Config1` except the flowsheet identifier changed. -/
def c4Config2 : WrapperConfig :=
  { fv_id := "fs1", server_port := "3000", isFvShow := true, isStreamTableShow := true }

/-- The updater leaves the collection unchanged when no entry's name
matches the clicked name. -/
lemma panelShowHandler_no_match (name : String) (ps : List PanelEntry)
    (h : ∀ el ∈ ps, el.panelName ≠ name) : panelShowHandler name ps = ps := by
  induction ps with
  | nil => rfl
  | cons el rest ih =>
      have hel : el.panelName ≠ name := h el (List.mem_cons_self el rest)
      have hrest : ∀ e ∈ rest, e.panelName ≠ name :=
        fun e he => h e (List.mem_cons_of_mem el he)
      simp only [panelShowHandler, List.map_cons, if_neg hel] at *
      rw [ih hrest]

/-- The rendered menu list has one item per panel entry. -/
lemma viewListFrom_length (ps : List PanelEntry) :
    ∀ k, (viewListFrom k ps).length = ps.length := by
  induction ps with
  | nil => intro k; rfl
  | cons el rest ih => intro k; simp [viewListFrom, ih]

/-- Positional characterization of the rendered menu list. -/
lemma viewListFrom_getElem? (ps : List PanelEntry) :
    ∀ k i : Nat, (viewListFrom k ps)[i]? =
      (ps[i]?).map (fun el =>
        ({ key := el.panelName ++ toString (k + i)
         , label := el.panelName
         , clickTarget := el.panelName
         , hasCheckIcon := el.shown } : MenuItem)) := by
  induction ps with
  | nil => intro k i; rfl
  | cons el rest ih =>
      intro k i
      cases i with
      | zero => simp [viewListFrom]
      | succ n =>
          simp only [viewListFrom, List.getElem?_cons_succ, ih]
          have : k + 1 + n = k + (n + 1) := by omega
          rw [this]

/-- Each re-run of the effect creates one driver instance, so the creates
after the first render count the dependency-array changes. -/
lemma countCreates_runFrom (cs : List WrapperConfig) :
    ∀ p, countCreates (runFrom p cs) = depChanges p cs := by
  induction cs with
  | nil => intro p; rfl
  | cons c cs ih =>
      intro p
      by_cases h : effectDeps c = effectDeps p
      · simp [runFrom, depChanges, h, ih]
      · simp [runFrom, depChanges, h, ih, countCreates]

/-- From any active instance onward, the trace pairs each create with the
matching cleanup, in order. -/
lemma wellBracketed_runFrom (cs : List WrapperConfig) :
    ∀ p, wellBracketed (DriverEvent.create (effectInstance p) :: runFrom p cs) = true := by
  induction cs with
  | nil => intro p; simp [runFrom, wellBracketed]
  | cons c cs ih =>
      intro p
      by_cases h : effectDeps c = effectDeps p
      · simp only [runFrom, if_pos h]
        exact ih p
      · simp only [runFrom, if_neg h, wellBracketed, if_pos rfl]
        exact ih c

/-- C6: the initial panel-state collection is exactly the ordered sequence
Flowsheet=true, Variables=true, Stream Table=true, Report=false,
Diagnostics=true, and clicking "Stream Table" once on it yields a state
with Stream Table's flag false and every other entry unchanged. -/
theorem C6_initial_state_and_stream_table_click :
    initialPanelState =
      [ { panelName := "Flowsheet", shown := true }
      , { panelName := "Variables", shown := true }
      , { panelName := "Stream Table", shown := true }
      , { panelName := "Report", shown := false }
      , { panelName := "Diagnostics", shown := true } ] ∧
    panelShowHandler "Stream Table" initialPanelState =
      [ { panelName := "Flowsheet", shown := true }
      , { panelName := "Variables", shown := true }
      , { panelName := "Stream Table", shown := false }
      , { panelName := "Report", shown := false }
      , { panelName := "Diagnostics", shown := true } ] := by
  decide

/-- C2: in both layout profiles, each flag-guarded region is mounted in the
render output exactly when its flag is true, and no mounted panel is merely
styled invisible with display none. -/
theorem C2_region_mounted_iff_flag :
    ∀ f v s d : Bool,
      (mounts "Flowsheet" (flowsheetWrapperA f v s) = f ∧
       mounts "FlowsheetHeader" (flowsheetWrapperA f v s) = f ∧
       mounts "Flowsheet_variable" (flowsheetWrapperA f v s) = v ∧
       mounts "FlowsheetVariablesHeader" (flowsheetWrapperA f v s) = v ∧
       mounts "StreamTable" (flowsheetWrapperA f v s) = s ∧
       hasHiddenPanel (flowsheetWrapperA f v s) = false) ∧
      (mounts "Flowsheet" (flowsheetWrapperB f d s) = f ∧
       mounts "FlowsheetHeader" (flowsheetWrapperB f d s) = f ∧
       mounts "FlowsheetDiagnostics" (flowsheetWrapperB f d s) = d ∧
       mounts "StreamTable" (flowsheetWrapperB f d s) = s ∧
       mounts "MinimizedBar" (flowsheetWrapperB f d s) = true ∧
       hasHiddenPanel (flowsheetWrapperB f d s) = false) := by
  decide

/-- C3: the claim fails on the code.  For every panel state reachable from
the initial state by menu toggles, the horizontal-primary wrapper's reads
`panelState.fv.show` / `panelState.diagnostics.show` /
`panelState.streamTable.show` throw a TypeError (`none`), because the
provider supplies `panelState` as an array of `{panelName, show}` objects,
which has no `fv` field. -/
theorem C3_wrapper_flag_reads_fail :
    ∀ clicks : List String,
      wrapperFlagReads
        (panelStateJS
          (clicks.foldl (fun ps n => panelShowHandler n ps) initialPanelState)) = none := by
  intro clicks
  rfl

/-- C5: starting from the mount state (`flowsheetState` null, nothing
logged), a failing fetch leaves `flowsheetState` null and logs exactly the
one error, surfacing nothing else; a successful fetch stores the parsed
body verbatim and logs nothing. -/
theorem C5_loader_failure_and_success :
    (∀ e, loadDemoFlowsheet (FetchResult.failure e) initialLoaderState =
      { flowsheetState := none, errorLog := [e] }) ∧
    (∀ d, loadDemoFlowsheet (FetchResult.success d) initialLoaderState =
      { flowsheetState := some d, errorLog := [] }) := by
  exact ⟨fun e => rfl, fun d => rfl⟩

/-- C7: the server-port configuration computed by the mount effect is the
fallback 8000 when the detected UI-serving port is the development port
"5173", and the detected port unchanged otherwise. -/
theorem C7_server_port_config (p : String) :
    (p = "5173" → serverPortConfig p = Sum.inr 8000) ∧
    (p ≠ "5173" → serverPortConfig p = Sum.inl p) := by
  constructor
  · intro h
    simp [serverPortConfig, h]
  · intro h
    simp [serverPortConfig, h]

/-- Witness to C7 at the development port and at an ordinary port. -/
theorem C7_server_port_config_witness :
    serverPortConfig "5173" = Sum.inr 8000 ∧
    serverPortConfig "8080" = Sum.inl "8080" :=
  ⟨(C7_server_port_config "5173").1 rfl,
   (C7_server_port_config "8080").2 (by decide)⟩

/-- C8: the View Menu renders exactly one entry per panel entry, in
collection order; the entry at each position displays that panel's name
(and toggles it on click) and carries the check icon exactly when the
panel's show flag is true. -/
theorem C8_view_menu_rendering (ps : List PanelEntry) :
    (viewList ps).length = ps.length ∧
    ∀ i : Nat, (viewList ps)[i]? =
      (ps[i]?).map (fun el =>
        ({ key := el.panelName ++ toString i
         , label := el.panelName
         , clickTarget := el.panelName
         , hasCheckIcon := el.shown } : MenuItem)) := by
  constructor
  · exact viewListFrom_length ps 0
  · intro i
    have h := viewListFrom_getElem? ps 0 i
    rw [Nat.zero_add] at h
    exact h

/-- C9: every update the click handler applies preserves the collection's
length, the panel name at every position (hence the order), and changes an
entry, if at all, only by negating its show flag. -/
theorem C9_handler_preserves_shape (name : String) (ps : List PanelEntry) :
    (panelShowHandler name ps).length = ps.length ∧
    (∀ i : Nat, ((panelShowHandler name ps)[i]?).map PanelEntry.panelName =
      (ps[i]?).map PanelEntry.panelName) ∧
    (∀ i : Nat, (panelShowHandler name ps)[i]? = ps[i]? ∨
      (panelShowHandler name ps)[i]? =
        (ps[i]?).map (fun el => { el with shown := !el.shown })) := by
  refine ⟨List.length_map ps _, fun i => ?_, fun i => ?_⟩
  · rw [panelShowHandler, List.getElem?_map]
    cases h : ps[i]? with
    | none => rfl
    | some el =>
        simp only [Option.map_some']
        by_cases hn : el.panelName = name
        · rw [if_pos hn]
        · rw [if_neg hn]
  · rw [panelShowHandler, List.getElem?_map]
    cases h : ps[i]? with
    | none => left; rfl
    | some el =>
        by_cases hn : el.panelName = name
        · right
          simp only [Option.map_some', if_pos hn]
        · left
          simp only [Option.map_some', if_neg hn]

/-- C10: when the clicked name matches no entry, the click handler's update
returns every entry unchanged — the update is a no-op on the collection's
contents. -/
theorem C10_no_match_is_noop (name : String) (ps : List PanelEntry)
    (h : ∀ el ∈ ps, el.panelName ≠ name) :
    panelShowHandler name ps = ps :=
  panelShowHandler_no_match name ps h

/-- Witness to C10: clicking a name absent from the initial collection
leaves it unchanged. -/
theorem C10_no_match_is_noop_witness :
    (∀ el ∈ initialPanelState, el.panelName ≠ "Preferences") ∧
    panelShowHandler "Preferences" initialPanelState = initialPanelState :=
  ⟨by decide, C10_no_match_is_noop "Preferences" initialPanelState (by decide)⟩

/-- C1: on a collection with distinct panel names, clicking a name that
matches an entry negates exactly that entry's show flag and returns every
other entry unchanged. -/
theorem C1_click_flips_exactly_matching (name : String) (ps : List PanelEntry)
    (hnodup : (ps.map PanelEntry.panelName).Nodup)
    (hmem : name ∈ ps.map PanelEntry.panelName) :
    (panelShowHandler name ps).length = ps.length ∧
    ∃ i : Nat, i < ps.length ∧
      (ps[i]?).map PanelEntry.panelName = some name ∧
      (panelShowHandler name ps)[i]? =
        (ps[i]?).map (fun el => { el with shown := !el.shown }) ∧
      ∀ j : Nat, j ≠ i → (panelShowHandler name ps)[j]? = ps[j]? := by
  induction ps with
  | nil => exact absurd hmem (List.not_mem_nil name)
  | cons el rest ih =>
      rw [List.map_cons, List.nodup_cons] at hnodup
      obtain ⟨hnotin, hnodup'⟩ := hnodup
      rw [List.map_cons, List.mem_cons] at hmem
      by_cases hel : el.panelName = name
      · have hrest : ∀ e ∈ rest, e.panelName ≠ name := by
          intro e he hcontra
          exact hnotin (hel ▸ hcontra ▸ List.mem_map_of_mem PanelEntry.panelName he)
        have htail :
            List.map (fun e => if e.panelName = name then { e with shown := !e.shown } else e)
              rest = rest :=
          panelShowHandler_no_match name rest hrest
        have hunfold : panelShowHandler name (el :: rest) =
            ({ el with shown := !el.shown }) :: rest := by
          simp only [panelShowHandler, List.map_cons, if_pos hel, htail]
        refine ⟨by simp [panelShowHandler], 0, Nat.succ_pos _, ?_, ?_, ?_⟩
        · simp [hel]
        · rw [hunfold]
          simp [List.getElem?_cons_zero]
        · intro j hj
          cases j with
          | zero => exact absurd rfl hj
          | succ n =>
              rw [hunfold, List.getElem?_cons_succ, List.getElem?_cons_succ]
      · have hmemrest : name ∈ rest.map PanelEntry.panelName := by
          rcases hmem with h | h
          · exact absurd h.symm hel
          · exact h
        obtain ⟨_, i, hi, hname, hflip, hframe⟩ := ih hnodup' hmemrest
        have hunfold : panelShowHandler name (el :: rest) =
            el :: panelShowHandler name rest := by
          simp only [panelShowHandler, List.map_cons, if_neg hel]
        refine ⟨by simp [panelShowHandler], i + 1, Nat.succ_lt_succ hi, ?_, ?_, ?_⟩
        · rw [List.getElem?_cons_succ]
          exact hname
        · rw [hunfold, List.getElem?_cons_succ, List.getElem?_cons_succ]
          exact hflip
        · intro j hj
          cases j with
          | zero => rw [hunfold]; simp [List.getElem?_cons_zero]
          | succ n =>
              rw [hunfold, List.getElem?_cons_succ, List.getElem?_cons_succ]
              exact hframe n (fun hc => hj (congrArg Nat.succ hc))

/-- Witness to C1: clicking "Report" on the initial collection flips
exactly the Report entry. -/
theorem C1_click_flips_exactly_matching_witness :
    (initialPanelState.map PanelEntry.panelName).Nodup ∧
    "Report" ∈ initialPanelState.map PanelEntry.panelName ∧
    ((panelShowHandler "Report" initialPanelState).length = initialPanelState.length ∧
     ∃ i : Nat, i < initialPanelState.length ∧
       (initialPanelState[i]?).map PanelEntry.panelName = some "Report" ∧
       (panelShowHandler "Report" initialPanelState)[i]? =
         (initialPanelState[i]?).map (fun el => { el with shown := !el.shown }) ∧
       ∀ j : Nat, j ≠ i →
         (panelShowHandler "Report" initialPanelState)[j]? = initialPanelState[j]?) :=
  ⟨by decide, by decide,
   C1_click_flips_exactly_matching "Report" initialPanelState (by decide) (by decide)⟩

/-- C4 counterexample: two successive renders whose configuration key
(identifier, port, flowsheet-visible, stream-table-visible) differs in the
identifier.  The effect's dependency array is only the two flags, so no
second driver instance is created for the changed key — the claim as
stated fails at this input. -/
theorem C4_one_instance_despite_key_change :
    effectInstance c4Config2 ≠ effectInstance c4Config1 ∧
    runEffects [c4Config1, c4Config2] =
      [ DriverEvent.create (effectInstance c4Config1)
      , DriverEvent.cleanup (effectInstance c4Config1) ] ∧
    countCreates (runEffects [c4Config1, c4Config2]) = 1 ∧
    DriverEvent.create (effectInstance c4Config2) ∉ runEffects [c4Config1, c4Config2] := by
  decide

/-- C4 amended: over every run of the horizontal-primary wrapper, the mount
effect creates exactly one driver instance per change of its dependency
pair (flowsheet-visible, stream-table-visible) — one at mount plus one per
change — and the trace is a sequence of create/cleanup pairs in which each
instance's event bindings are released before the next instance is created
and on unmount. -/
theorem C4_amended_driver_lifecycle (c : WrapperConfig) (cs : List WrapperConfig) :
    countCreates (runEffects (c :: cs)) = 1 + depChanges c cs ∧
    wellBracketed (runEffects (c :: cs)) = true := by
  constructor
  · simp only [runEffects, countCreates, countCreates_runFrom]
    omega
  · exact wellBracketed_runFrom cs c

/-- Witness to C4's amended statement: a concrete three-render run whose
flags change once. -/
theorem C4_amended_driver_lifecycle_witness :
    countCreates (runEffects [c4Config1, c4Config2,
      { c4Config1 with isFvShow := false }]) = 1 + depChanges c4Config1
        [c4Config2, { c4Config1 with isFvShow := false }] ∧
    wellBracketed (runEffects [c4Config1, c4Config2,
      { c4Config1 with isFvShow := false }]) = true :=
  C4_amended_driver_lifecycle c4Config1 [c4Config2, { c4Config1 with isFvShow := false }]
